import Mathlib

/-!
Shallow embedding of the tensorflow-serving request-dispatch and
model-bundle-factory core, translated from:

* tensorflow_serving/model_servers/prediction_service_impl.cc
  (the request dispatcher: Predict / Classify / Regress / MultiInference /
  GetModelMetadata, deadline-to-timeout conversion, metrics recording);
* tensorflow_serving/servables/tensorflow/saved_model_bundle_factory.cc
  (bundle factory: backend selection, tag handling, metadata trimming,
  batching-scheduler wiring);
* tensorflow_serving/model_servers/http_rest_api_util.cc
  (FillModelSpecWithNameVersionAndLabel).

External collaborators (the gpr time library, the artifact storage, the
full-engine saved-model loader, the lightweight tflite interpreter) are
modelled as explicit parameters or as small functions reproducing their
documented behaviour.
-/

namespace TfServing

/-! ## Status codes and statuses -/

/-- Canonical status codes used across the serving core (tensorflow::error
and the matching grpc codes). -/
inductive StatusCode where
  | ok
  | cancelled
  | unknown
  | invalidArgument
  | deadlineExceeded
  | notFound
  | internal
  | unavailable
  | unimplemented
deriving DecidableEq, Repr

/-- tensorflow::Status: a code plus a human-readable message. -/
structure TfStatus where
  code : StatusCode
  message : String
deriving DecidableEq, Repr

/-- The OK tensorflow status. -/
def TfStatus.okStatus : TfStatus := { code := .ok, message := "" }

/-- grpc::Status as observed by the caller: code plus message. -/
structure GrpcStatus where
  code : StatusCode
  message : String
deriving DecidableEq, Repr

/-- ToGRPCStatus (grpc_status_util): a 1:1, message-preserving mapping from
the internal status to the wire status. -/
def ToGRPCStatus (s : TfStatus) : GrpcStatus :=
  { code := s.code, message := s.message }

/-- grpc status.ok() check. -/
def GrpcStatus.is_ok (s : GrpcStatus) : Bool :=
  s.code = StatusCode.ok

/-! ## gpr time library (external collaborator, modelled from the gRPC gpr
time functions used by DeadlineToTimeoutMillis) -/

/-- gpr_timespec: seconds plus nanoseconds.  A normalized timespec keeps the
nanosecond field inside [0, 10^9). -/
structure GprTimespec where
  tv_sec : Int
  tv_nsec : Int
deriving DecidableEq, Repr

/-- The normalization invariant the gpr library maintains for timespecs. -/
def GprTimespec.normalized (t : GprTimespec) : Prop :=
  0 ≤ t.tv_nsec ∧ t.tv_nsec < 1000000000

instance (t : GprTimespec) : Decidable t.normalized := by
  unfold GprTimespec.normalized; infer_instance

/-- Total nanoseconds represented by a timespec. -/
def GprTimespec.nanos (t : GprTimespec) : Int :=
  t.tv_sec * 1000000000 + t.tv_nsec

/-- gpr_time_sub (gRPC gpr time library): componentwise subtraction with the
nanosecond field re-normalized into [0, 10^9). -/
def gpr_time_sub (a b : GprTimespec) : GprTimespec :=
  let sec := a.tv_sec - b.tv_sec
  let nsec := a.tv_nsec - b.tv_nsec
  if nsec < 0 then
    { tv_sec := sec - 1, tv_nsec := nsec + 1000000000 }
  else
    { tv_sec := sec, tv_nsec := nsec }

/-- gpr_time_to_millis (gRPC gpr time library, non-saturating range):
sec * 1000 + nsec / 10^6, where the division is C integer division
(truncation toward zero; the nanosecond field of a normalized timespec is
nonnegative, so this is ordinary floor division there). -/
def gpr_time_to_millis (t : GprTimespec) : Int :=
  t.tv_sec * 1000 + Int.tdiv t.tv_nsec 1000000

/-- DeadlineToTimeoutMillis (prediction_service_impl.cc, lines 32-36):
convert the absolute request deadline into a timeout relative to now.
Both arguments are timespecs on the monotonic clock
(gpr_convert_clock_type is modelled as the identity, both readings being
taken on the same clock). -/
def DeadlineToTimeoutMillis (deadline now : GprTimespec) : Int :=
  gpr_time_to_millis (gpr_time_sub deadline now)

/-! ## Run options and metrics -/

/-- tensorflow::RunOptions, restricted to the single field the dispatcher
touches.  The proto default 0 means "no timeout" (infinite). -/
structure RunOptions where
  timeout_in_ms : Int := 0
deriving DecidableEq, Repr

/-- One latency sample as recorded by RecordRequestLatency. -/
structure LatencySample where
  model_name : String
  api : String
  entry_point : String
  micros : Nat
deriving DecidableEq, Repr

/-- One request-count sample as recorded by RecordModelRequestCount. -/
structure CountSample where
  model_name : String
  code : StatusCode
deriving DecidableEq, Repr

/-! ## Request dispatcher (prediction_service_impl.cc)

Each handler is a pure function of: the configuration flag
enforce_session_run_timeout_, the request deadline and the current clock
reading, the two wall-clock readings taken around the delegated call
(start / finish, in microseconds), the request model name, and the
tensorflow status returned by the delegated service call (the external
backend).  It returns the wire status together with everything the handler
emitted: the RunOptions handed to the backend (none when no RunOptions is
constructed at all) and the recorded metric samples. -/

/-- Everything one dispatcher call produces. -/
structure DispatchResult where
  status : GrpcStatus
  run_options : Option RunOptions
  latency_samples : List LatencySample
  count_samples : List CountSample
deriving DecidableEq, Repr

/-- The RunOptions block shared by Predict / Classify / Regress /
MultiInference: default options, with the timeout set from the deadline
only when enforce_session_run_timeout_ is configured. -/
def make_run_options (enforce_session_run_timeout : Bool)
    (deadline now : GprTimespec) : RunOptions :=
  if enforce_session_run_timeout then
    { timeout_in_ms := DeadlineToTimeoutMillis deadline now }
  else
    {}

/-- PredictionServiceImpl::Predict (lines 52-77). -/
def PredictionServiceImpl.Predict (enforce_session_run_timeout : Bool)
    (deadline now : GprTimespec) (start finish : Nat)
    (model_name : String) (tf_status : TfStatus) : DispatchResult :=
  let run_options := make_run_options enforce_session_run_timeout deadline now
  let status := ToGRPCStatus tf_status
  { status
    run_options := some run_options
    latency_samples :=
      if status.is_ok then
        [{ model_name, api := "Predict", entry_point := "GRPC",
           micros := finish - start }]
      else []
    count_samples := [{ model_name, code := tf_status.code }] }

/-- PredictionServiceImpl::Classify (lines 90-117). -/
def PredictionServiceImpl.Classify (enforce_session_run_timeout : Bool)
    (deadline now : GprTimespec) (start finish : Nat)
    (model_name : String) (tf_status : TfStatus) : DispatchResult :=
  let run_options := make_run_options enforce_session_run_timeout deadline now
  let status := ToGRPCStatus tf_status
  { status
    run_options := some run_options
    latency_samples :=
      if status.is_ok then
        [{ model_name, api := "Classify", entry_point := "GRPC",
           micros := finish - start }]
      else []
    count_samples := [{ model_name, code := tf_status.code }] }

/-- PredictionServiceImpl::Regress (lines 119-146). -/
def PredictionServiceImpl.Regress (enforce_session_run_timeout : Bool)
    (deadline now : GprTimespec) (start finish : Nat)
    (model_name : String) (tf_status : TfStatus) : DispatchResult :=
  let run_options := make_run_options enforce_session_run_timeout deadline now
  let status := ToGRPCStatus tf_status
  { status
    run_options := some run_options
    latency_samples :=
      if status.is_ok then
        [{ model_name, api := "Regress", entry_point := "GRPC",
           micros := finish - start }]
      else []
    count_samples := [{ model_name, code := tf_status.code }] }

/-- PredictionServiceImpl::MultiInference (lines 148-164): builds
RunOptions like the other handlers but records neither a latency sample
nor a request-count sample. -/
def PredictionServiceImpl.MultiInference (enforce_session_run_timeout : Bool)
    (deadline now : GprTimespec)
    (tf_status : TfStatus) : DispatchResult :=
  let run_options := make_run_options enforce_session_run_timeout deadline now
  { status := ToGRPCStatus tf_status
    run_options := some run_options
    latency_samples := []
    count_samples := [] }

/-- PredictionServiceImpl::GetModelMetadata (lines 79-88): no RunOptions,
no latency sample, no request-count sample. -/
def PredictionServiceImpl.GetModelMetadata (tf_status : TfStatus) :
    DispatchResult :=
  { status := ToGRPCStatus tf_status
    run_options := none
    latency_samples := []
    count_samples := [] }

/-- The five dispatcher operations. -/
inductive Op where
  | predictOp
  | classifyOp
  | regressOp
  | multiInferenceOp
  | getModelMetadataOp
deriving DecidableEq, Repr

/-- Uniform view of the five handlers, for statements quantifying over
all dispatcher operations. -/
def dispatch (op : Op) (enforce_session_run_timeout : Bool)
    (deadline now : GprTimespec) (start finish : Nat)
    (model_name : String) (tf_status : TfStatus) : DispatchResult :=
  match op with
  | .predictOp =>
      PredictionServiceImpl.Predict enforce_session_run_timeout deadline now
        start finish model_name tf_status
  | .classifyOp =>
      PredictionServiceImpl.Classify enforce_session_run_timeout deadline now
        start finish model_name tf_status
  | .regressOp =>
      PredictionServiceImpl.Regress enforce_session_run_timeout deadline now
        start finish model_name tf_status
  | .multiInferenceOp =>
      PredictionServiceImpl.MultiInference enforce_session_run_timeout
        deadline now tf_status
  | .getModelMetadataOp =>
      PredictionServiceImpl.GetModelMetadata tf_status

/-! ## Signatures and metadata (data model of the bundle factory) -/

/-- A tensor descriptor inside a signature (TensorInfo): physical tensor
name, data type and shape. -/
structure TensorDescr where
  name : String
  dtype : String
  shape : List Int
deriving DecidableEq, Repr

/-- SignatureDef: a method-name contract plus logical-name-keyed input and
output tensor descriptors. -/
structure SignatureDef where
  method_name : String
  inputs : List (String × TensorDescr)
  outputs : List (String × TensorDescr)
deriving DecidableEq, Repr

/-- A signature map: signature key to SignatureDef (protobuf map modelled
as an association list). -/
def SignatureMap : Type := List (String × SignatureDef)

instance : DecidableEq SignatureMap := by
  unfold SignatureMap; infer_instance

instance : Repr SignatureMap := by
  unfold SignatureMap; infer_instance

instance : Membership (String × SignatureDef) SignatureMap := by
  unfold SignatureMap; infer_instance

/-- Lookup of a signature key in a signature map. -/
def lookup_signature (k : String) (m : SignatureMap) : Option SignatureDef :=
  match m with
  | [] => none
  | (k₀, v₀) :: rest => if k₀ = k then some v₀ else lookup_signature k rest

/-- MetaGraphDef, restricted to the section the serving core keeps
(signature_def) plus representative stand-ins for every other section
(graph_def, meta_info_def), whose proto defaults are empty. -/
structure MetaGraphDef where
  signature_def : SignatureMap := []
  graph_def : String := ""
  meta_info_def : String := ""
deriving DecidableEq, Repr

/-! ## SessionBundleConfig (proto fields read by the factory) -/

/-- Batching parameters (max batch size, batch timeout, thread count). -/
structure BatchingParameters where
  max_batch_size : Nat
  batch_timeout_micros : Nat
  num_batch_threads : Nat
deriving DecidableEq, Repr

/-- SessionBundleConfig, restricted to the fields
saved_model_bundle_factory.cc reads. -/
structure SessionBundleConfig where
  saved_model_tags : List String := []
  prefer_tflite_model : Bool := false
  num_tflite_interpreters : Nat := 1
  batching_parameters : Option BatchingParameters := none
  remove_unused_fields_from_bundle_metagraph : Bool := false
  resource_estimation_uses_validation_result : Bool := false
deriving DecidableEq, Repr

/-- kSavedModelTagServe. -/
def kSavedModelTagServe : String := "serve"

/-- The active tag set computed at the top of
InternalCreateSavedModelBundle (lines 129-135): the configured tags,
collected into a set, with the single default serve tag inserted when the
configured set is empty. -/
def active_saved_model_tags (config : SessionBundleConfig) : Finset String :=
  let saved_model_tags := config.saved_model_tags.toFinset
  if saved_model_tags = ∅ then {kSavedModelTagServe} else saved_model_tags

/-! ## Execution backends and the loading environment -/

/-- A serialized lightweight (tflite) artifact, modelled by the signature
map embedded in its bytes. -/
structure TfLiteModel where
  signature_def_map : SignatureMap
deriving DecidableEq, Repr

/-- The servable metadata optionally attached to a load
(Loader::Metadata: servable name plus numeric version). -/
structure LoaderMetadata where
  name : String
  version : Int
deriving DecidableEq, Repr

/-- A serving-level error: status code plus message. -/
structure ServingError where
  code : StatusCode
  message : String
deriving DecidableEq, Repr

/-- The external world a Load touches: the artifact storage (the bytes of
the model.tflite file under a directory, when that file exists) and the
full-engine saved-model loader.  The loader receives the optional session
metadata annotation, the artifact path and the active tag set, and returns
the loaded MetaGraphDef or an error. -/
structure ModelEnv where
  tflite_model : String → Option TfLiteModel
  load_saved_model :
    Option LoaderMetadata → String → Finset String →
      Except ServingError MetaGraphDef

/-- The in-process handle a successful TfLiteSession::Create returns. -/
structure TfLiteSessionHandle where
  model : TfLiteModel
  num_interpreters : Nat
deriving DecidableEq, Repr

/-- Modelled from the spec: TfLiteSession::Create (declared in
tflite_session.h; its definition is not among the provided sources, only
its tests and its caller LoadTfLiteModel are).  Per the spec the lightweight
backend is built "directly from the artifact serialized bytes, extracting
its embedded signature map", and the resulting bundle signature map
"contains exactly the signatures embedded in that file": the caller-supplied
map is cleared and then filled with the extracted signatures, so the result
does not depend on what the map held before the call. -/
def TfLiteSession.Create (model_bytes : TfLiteModel)
    (signatures : SignatureMap) (num_interpreters : Nat) :
    TfLiteSessionHandle × SignatureMap :=
  ({ model := model_bytes, num_interpreters },
   model_bytes.signature_def_map)

/-- The selected execution backend inside a loaded bundle: exactly one of
the lightweight interpreter (holding the artifact bytes and the replica
count) or the full engine (recording the tag set it was loaded with). -/
inductive SessionCore where
  | tfliteSession (model : TfLiteModel) (num_interpreters : Nat)
  | fullSession (tags : Finset String)
deriving DecidableEq

/-- A batching-scheduler instance, identified abstractly. -/
abbrev Batcher : Type := Nat

/-- The session object stored in a finished bundle: the backend wrapped
either in the batching adapter (bound to a scheduler and the bundle
signatures) or in the trivial pass-through adapter. -/
inductive ServingSession where
  | batching (scheduler : Batcher) (signatures : List SignatureDef)
      (core : SessionCore)
  | passthrough (core : SessionCore)
deriving DecidableEq

/-- The backend inside a wrapped session. -/
def ServingSession.core : ServingSession → SessionCore
  | .batching _ _ core => core
  | .passthrough core => core

/-- The scheduler a wrapped session is bound to, when any. -/
def ServingSession.scheduler : ServingSession → Option Batcher
  | .batching scheduler _ _ => some scheduler
  | .passthrough _ => none

/-- SavedModelBundle: one wrapped session plus the retained metadata. -/
structure SavedModelBundle where
  session : ServingSession
  meta_graph_def : MetaGraphDef
deriving DecidableEq

/-! ## SavedModelBundleFactory -/

/-- SavedModelBundleFactory: the configuration and the optional shared
batch scheduler, both fixed at construction. -/
structure SavedModelBundleFactory where
  config_ : SessionBundleConfig
  batch_scheduler_ : Option Batcher
deriving DecidableEq

/-- SavedModelBundleFactory::Create (lines 96-106): construct the batch
scheduler once, if and only if batching parameters are configured, and
store it in the factory.  fresh_scheduler stands for the scheduler
instance CreateBatchScheduler would produce. -/
def SavedModelBundleFactory.Create (config : SessionBundleConfig)
    (fresh_scheduler : Batcher) : SavedModelBundleFactory :=
  { config_ := config
    batch_scheduler_ :=
      if config.batching_parameters.isSome then some fresh_scheduler
      else none }

/-- TfLiteModelFound (lines 89-92): does the well-known model.tflite file
exist under the artifact directory? -/
def TfLiteModelFound (env : ModelEnv) (model_dir : String) : Bool :=
  (env.tflite_model model_dir).isSome

/-- LoadTfLiteModel (lines 65-87): read the model.tflite bytes and build a
TfLiteSession from them; the third argument of TfLiteSession::Create is
the (freshly constructed, hence empty) signature map of the bundle under
construction, which Create fills with the extracted signatures.  When the
file is absent the read fails (GetFileSize error path). -/
def LoadTfLiteModel (env : ModelEnv) (model_dir : String)
    (num_interpreters : Nat) :
    Except ServingError (SessionCore × SignatureMap) :=
  match env.tflite_model model_dir with
  | none =>
      .error { code := .notFound, message := "model.tflite not found" }
  | some model_bytes =>
      let created := TfLiteSession.Create model_bytes [] num_interpreters
      .ok (.tfliteSession created.1.model created.1.num_interpreters,
           created.2)

/-- GetSignatureDefs (lines 37-44): every SignatureDef value stored in the
bundle metagraph signature map. -/
def GetSignatureDefs (bundle_mgd : MetaGraphDef) : List SignatureDef :=
  bundle_mgd.signature_def.map Prod.snd

/-- The backend-construction phase of InternalCreateSavedModelBundle
(lines 128-154): a fresh bundle, filled either by LoadTfLiteModel (when
the configuration prefers the lightweight backend and the lightweight
artifact exists) or by the full-engine loader under the active tags.  The
result pairs the constructed backend with the bundle metagraph as loaded,
before any trimming or wrapping. -/
def SavedModelBundleFactory.load_backend (f : SavedModelBundleFactory)
    (env : ModelEnv) (metadata : Option LoaderMetadata) (path : String) :
    Except ServingError (SessionCore × MetaGraphDef) :=
  let saved_model_tags := active_saved_model_tags f.config_
  if f.config_.prefer_tflite_model && TfLiteModelFound env path then
    match LoadTfLiteModel env path f.config_.num_tflite_interpreters with
    | .error e => .error e
    | .ok (core, sigs) => .ok (core, { signature_def := sigs })
  else
    match env.load_saved_model metadata path saved_model_tags with
    | .error e => .error e
    | .ok mgd => .ok (.fullSession saved_model_tags, mgd)

/-- The metadata-trimming step (lines 155-166): swap the bundle metagraph
with a fresh message, then swap the signature_def section back; the net
result is a fresh MetaGraphDef retaining only the original signature_def
section. -/
def trim_metagraph (m : MetaGraphDef) : MetaGraphDef :=
  { signature_def := m.signature_def }

/-- The metadata kept in the bundle: the loaded metagraph, trimmed when
the configuration asks for it (lines 155-166). -/
def SavedModelBundleFactory.retained_metagraph (f : SavedModelBundleFactory)
    (loaded_mgd : MetaGraphDef) : MetaGraphDef :=
  if f.config_.remove_unused_fields_from_bundle_metagraph then
    trim_metagraph loaded_mgd
  else loaded_mgd

/-- The wrapping phase of InternalCreateSavedModelBundle (lines 167-180):
wrap the session for batching (an Internal error when batching is
configured but no scheduler is held) or in the trivial pass-through
adapter. -/
def SavedModelBundleFactory.finish_bundle (f : SavedModelBundleFactory)
    (core : SessionCore) (loaded_mgd : MetaGraphDef) :
    Except ServingError SavedModelBundle :=
  if f.config_.batching_parameters.isSome then
    match f.batch_scheduler_ with
    | none =>
        .error { code := .internal, message := "batch_scheduler_ not set" }
    | some scheduler =>
        .ok { session :=
                .batching scheduler
                  (GetSignatureDefs (f.retained_metagraph loaded_mgd)) core
              meta_graph_def := f.retained_metagraph loaded_mgd }
  else
    .ok { session := .passthrough core
          meta_graph_def := f.retained_metagraph loaded_mgd }

/-- SavedModelBundleFactory::InternalCreateSavedModelBundle
(lines 125-181): build the backend, optionally trim the metadata, then
wrap the session. -/
def SavedModelBundleFactory.internal_create_saved_model_bundle
    (f : SavedModelBundleFactory) (env : ModelEnv)
    (metadata : Option LoaderMetadata) (path : String) :
    Except ServingError SavedModelBundle :=
  match f.load_backend env metadata path with
  | .error e => .error e
  | .ok (core, loaded_mgd) => f.finish_bundle core loaded_mgd

/-- CreateSavedModelBundleWithMetadata (lines 114-118). -/
def SavedModelBundleFactory.CreateSavedModelBundleWithMetadata
    (f : SavedModelBundleFactory) (env : ModelEnv)
    (metadata : LoaderMetadata) (path : String) :
    Except ServingError SavedModelBundle :=
  f.internal_create_saved_model_bundle env (some metadata) path

/-- CreateSavedModelBundle (lines 120-123). -/
def SavedModelBundleFactory.CreateSavedModelBundle
    (f : SavedModelBundleFactory) (env : ModelEnv) (path : String) :
    Except ServingError SavedModelBundle :=
  f.internal_create_saved_model_bundle env none path

/-! ## ModelSpec filling (http_rest_api_util.cc) -/

/-- ModelSpec: name plus the optional version selectors. -/
structure ModelSpec where
  name : String
  version : Option Int
  version_label : Option String
deriving DecidableEq, Repr

/-- FillModelSpecWithNameVersionAndLabel (http_rest_api_util.cc,
lines 209-230): the name is always set; supplying both an explicit
version and a version label is an InvalidArgument error; otherwise the
supplied selector (if any) is copied into the spec. -/
def FillModelSpecWithNameVersionAndLabel (model_name : String)
    (model_version : Option Int) (model_version_label : Option String) :
    Except ServingError ModelSpec :=
  match model_version, model_version_label with
  | some v, some l =>
      .error { code := .invalidArgument
               message := "Both model version (" ++ toString v ++
                 ") and model version label (" ++ l ++
                 ") cannot be supplied." }
  | v, l => .ok { name := model_name, version := v, version_label := l }

/-! ## Concrete fixtures: the literal half_plus_two lightweight artifact of
tflite_session_test.cc and small environments and factories used to
instantiate theorems on concrete inputs -/

/-- The signature embedded in the half_plus_two model.tflite test artifact
(tflite_session_test.cc, BasicTest): one input x and one output y, both
1x1 float tensors, under the predict method. -/
def half_plus_two_signature : SignatureDef :=
  { method_name := "tensorflow/serving/predict"
    inputs := [("x", { name := "x", dtype := "DT_FLOAT", shape := [1, 1] })]
    outputs := [("y", { name := "y", dtype := "DT_FLOAT", shape := [1, 1] })] }

/-- The half_plus_two lightweight artifact: exactly one embedded
signature, keyed serving_default. -/
def half_plus_two_tflite : TfLiteModel :=
  { signature_def_map := [("serving_default", half_plus_two_signature)] }

/-- The artifact path used by the fixtures. -/
def test_model_path : String := "/models/half_plus_two/00000123"

/-- An environment whose artifact path holds only the lightweight file;
the full-engine loader finds nothing anywhere. -/
def env_tflite_only : ModelEnv :=
  { tflite_model := fun dir =>
      if dir = test_model_path then some half_plus_two_tflite else none
    load_saved_model := fun _ _ _ =>
      .error { code := .notFound, message := "no saved-model variant" } }

/-- An environment with no artifact at all. -/
def env_no_artifact : ModelEnv :=
  { tflite_model := fun _ => none
    load_saved_model := fun _ _ _ =>
      .error { code := .notFound, message := "no servable" } }

/-- A metagraph as the full-engine loader would produce it, with nonempty
sections besides signature_def. -/
def full_engine_mgd : MetaGraphDef :=
  { signature_def := [("serving_default", half_plus_two_signature)]
    graph_def := "graph bytes", meta_info_def := "meta info" }

/-- An environment where the full-engine load always succeeds and no
lightweight artifact exists. -/
def env_full_engine : ModelEnv :=
  { tflite_model := fun _ => none
    load_saved_model := fun _ _ _ => .ok full_engine_mgd }

/-- The batching parameters of the spec example: max_batch_size 2, max
latency 50 ms. -/
def example_batching_parameters : BatchingParameters :=
  { max_batch_size := 2, batch_timeout_micros := 50000
    num_batch_threads := 1 }

/-- A configuration that prefers the lightweight backend and requests
batching. -/
def config_tflite_batching : SessionBundleConfig :=
  { prefer_tflite_model := true
    batching_parameters := some example_batching_parameters }

/-- A factory whose configuration requests batching but which holds no
scheduler. -/
def factory_batching_no_scheduler : SavedModelBundleFactory :=
  { config_ := config_tflite_batching, batch_scheduler_ := none }

/-- A factory that prefers the lightweight backend, without batching. -/
def factory_tflite_only : SavedModelBundleFactory :=
  { config_ := { prefer_tflite_model := true }, batch_scheduler_ := none }

/-- A factory with the all-default configuration. -/
def factory_plain : SavedModelBundleFactory :=
  { config_ := {}, batch_scheduler_ := none }

/-- A factory with the strip-metadata flag set. -/
def factory_strip : SavedModelBundleFactory :=
  { config_ := { remove_unused_fields_from_bundle_metagraph := true }
    batch_scheduler_ := none }

/-- The bundle the lightweight-only fixtures load. -/
def bundle_tflite_fixture : SavedModelBundle :=
  { session := .passthrough (.tfliteSession half_plus_two_tflite 1)
    meta_graph_def :=
      { signature_def := [("serving_default", half_plus_two_signature)] } }

/-- The bundle factory_plain loads from env_full_engine. -/
def bundle_full_fixture : SavedModelBundle :=
  { session := .passthrough (.fullSession {kSavedModelTagServe})
    meta_graph_def := full_engine_mgd }

/-- The bundle factory_strip loads from env_full_engine: the metadata is
trimmed to its signature_def section. -/
def bundle_full_trimmed_fixture : SavedModelBundle :=
  { session := .passthrough (.fullSession {kSavedModelTagServe})
    meta_graph_def :=
      { signature_def := [("serving_default", half_plus_two_signature)] } }

/-! ## Theorems -/

/-- Elimination helper: a successful finish_bundle keeps the constructed
backend, stores the retained metagraph, and binds the session to exactly
the factory scheduler when batching is configured and to none
otherwise. -/
theorem finish_bundle_ok_elim (f : SavedModelBundleFactory)
    (core : SessionCore) (loaded_mgd : MetaGraphDef)
    (bundle : SavedModelBundle)
    (h : f.finish_bundle core loaded_mgd = .ok bundle) :
    bundle.session.core = core ∧
    bundle.meta_graph_def = f.retained_metagraph loaded_mgd ∧
    bundle.session.scheduler =
      (if f.config_.batching_parameters.isSome then f.batch_scheduler_
       else none) := by
  unfold SavedModelBundleFactory.finish_bundle at h
  split at h
  · cases hs : f.batch_scheduler_ with
    | none => rw [hs] at h; cases h
    | some b =>
        rw [hs] at h
        cases h
        simp_all [ServingSession.core, ServingSession.scheduler]
  · cases h
    simp_all [ServingSession.core, ServingSession.scheduler]

/-- Elimination helper: a successful InternalCreateSavedModelBundle is a
successful backend load followed by a successful finish. -/
theorem internal_create_ok_elim (f : SavedModelBundleFactory)
    (env : ModelEnv) (metadata : Option LoaderMetadata) (path : String)
    (bundle : SavedModelBundle)
    (h : f.internal_create_saved_model_bundle env metadata path =
      .ok bundle) :
    ∃ core loaded_mgd,
      f.load_backend env metadata path = .ok (core, loaded_mgd) ∧
      f.finish_bundle core loaded_mgd = .ok bundle := by
  unfold SavedModelBundleFactory.internal_create_saved_model_bundle at h
  cases hl : f.load_backend env metadata path with
  | error e => rw [hl] at h; cases h
  | ok cm =>
      obtain ⟨core, loaded_mgd⟩ := cm
      rw [hl] at h
      exact ⟨core, loaded_mgd, rfl, h⟩

/-- Elimination helper: when the configuration prefers the lightweight
backend and the artifact exists, a successful backend load produced the
lightweight session from the artifact bytes with the configured replica
count, and the loaded metagraph holds exactly the embedded signatures. -/
theorem load_backend_tflite_elim (f : SavedModelBundleFactory)
    (env : ModelEnv) (metadata : Option LoaderMetadata) (path : String)
    (core : SessionCore) (loaded_mgd : MetaGraphDef)
    (hc : (f.config_.prefer_tflite_model && TfLiteModelFound env path) = true)
    (hl : f.load_backend env metadata path = .ok (core, loaded_mgd)) :
    ∃ model_bytes, env.tflite_model path = some model_bytes ∧
      core = .tfliteSession model_bytes f.config_.num_tflite_interpreters ∧
      loaded_mgd = { signature_def := model_bytes.signature_def_map } := by
  unfold SavedModelBundleFactory.load_backend at hl
  rw [hc] at hl
  simp only [if_true] at hl
  unfold LoadTfLiteModel TfLiteSession.Create at hl
  cases he : env.tflite_model path with
  | none =>
      rw [he] at hl
      cases hl
  | some model_bytes =>
      rw [he] at hl
      cases hl
      exact ⟨model_bytes, rfl, rfl, rfl⟩

/-- Elimination helper: when the lightweight branch is not taken, a
successful backend load came from the full-engine loader under the active
tag set, recorded in the session. -/
theorem load_backend_full_elim (f : SavedModelBundleFactory)
    (env : ModelEnv) (metadata : Option LoaderMetadata) (path : String)
    (core : SessionCore) (loaded_mgd : MetaGraphDef)
    (hc : (f.config_.prefer_tflite_model && TfLiteModelFound env path)
      = false)
    (hl : f.load_backend env metadata path = .ok (core, loaded_mgd)) :
    core = .fullSession (active_saved_model_tags f.config_) ∧
    env.load_saved_model metadata path (active_saved_model_tags f.config_) =
      .ok loaded_mgd := by
  unfold SavedModelBundleFactory.load_backend at hl
  rw [hc] at hl
  simp only [Bool.false_eq_true, if_false] at hl
  cases he : env.load_saved_model metadata path
      (active_saved_model_tags f.config_) with
  | error e => rw [he] at hl; cases hl
  | ok mgd =>
      rw [he] at hl
      cases hl
      exact ⟨rfl, rfl⟩

/-- Helper: on normalized timespecs, DeadlineToTimeoutMillis is exactly the
floor of the nanosecond difference divided by 10^6 — i.e. deadline minus
now truncated (floored) to millisecond resolution, with no clamping at
zero. -/
theorem deadline_to_timeout_eq_fdiv (d n : GprTimespec)
    (hd : d.normalized) (hn : n.normalized) :
    DeadlineToTimeoutMillis d n = Int.fdiv (d.nanos - n.nanos) 1000000 := by
  obtain ⟨hd0, hd1⟩ := hd
  obtain ⟨hn0, hn1⟩ := hn
  unfold DeadlineToTimeoutMillis gpr_time_sub gpr_time_to_millis
    GprTimespec.nanos
  rw [Int.fdiv_eq_ediv _ (by norm_num)]
  by_cases h : d.tv_nsec - n.tv_nsec < 0 <;> simp only [h, if_true, if_false]
  · rw [Int.tdiv_eq_ediv (by omega) (by norm_num)]
    omega
  · rw [Int.tdiv_eq_ediv (by omega) (by norm_num)]
    omega

/-- C1 (counterexample): a MultiInference call that succeeds records zero
request-count samples (and zero latency samples), not exactly one
request-count sample as the claim requires for every dispatcher
operation. -/
theorem c1_metrics_counterexample :
    (dispatch .multiInferenceOp false ⟨0, 0⟩ ⟨0, 0⟩ 0 0 "m"
        TfStatus.okStatus).status.code = StatusCode.ok ∧
    (dispatch .multiInferenceOp false ⟨0, 0⟩ ⟨0, 0⟩ 0 0 "m"
        TfStatus.okStatus).latency_samples.length = 0 ∧
    ¬ ((dispatch .multiInferenceOp false ⟨0, 0⟩ ⟨0, 0⟩ 0 0 "m"
        TfStatus.okStatus).count_samples.length = 1) := by
  refine ⟨rfl, rfl, ?_⟩
  decide

/-- C1 (amended): for the Predict, Classify and Regress handlers, a
successful call records exactly one latency sample and exactly one
request-count sample, and a failing call records zero latency samples and
exactly one request-count sample; the MultiInference and GetModelMetadata
handlers record no latency sample and no request-count sample on any
outcome. -/
theorem c1_metrics_amended (op : Op) (enforce : Bool)
    (deadline now : GprTimespec) (start finish : Nat) (model_name : String)
    (tf_status : TfStatus) :
    ((op = .predictOp ∨ op = .classifyOp ∨ op = .regressOp) →
      (tf_status.code = .ok →
        (dispatch op enforce deadline now start finish model_name
            tf_status).latency_samples.length = 1 ∧
        (dispatch op enforce deadline now start finish model_name
            tf_status).count_samples.length = 1) ∧
      (tf_status.code ≠ .ok →
        (dispatch op enforce deadline now start finish model_name
            tf_status).latency_samples.length = 0 ∧
        (dispatch op enforce deadline now start finish model_name
            tf_status).count_samples.length = 1)) ∧
    ((op = .multiInferenceOp ∨ op = .getModelMetadataOp) →
      (dispatch op enforce deadline now start finish model_name
          tf_status).latency_samples.length = 0 ∧
      (dispatch op enforce deadline now start finish model_name
          tf_status).count_samples.length = 0) := by
  cases op <;>
    simp [dispatch, PredictionServiceImpl.Predict,
      PredictionServiceImpl.Classify, PredictionServiceImpl.Regress,
      PredictionServiceImpl.MultiInference,
      PredictionServiceImpl.GetModelMetadata, GrpcStatus.is_ok,
      ToGRPCStatus] <;>
    intro h <;> simp [h]

/-- C1 (witness). -/
theorem c1_metrics_amended_witness :
    (dispatch .predictOp false ⟨0, 0⟩ ⟨0, 0⟩ 0 5 "m"
        TfStatus.okStatus).latency_samples.length = 1 ∧
    (dispatch .predictOp false ⟨0, 0⟩ ⟨0, 0⟩ 0 5 "m"
        TfStatus.okStatus).count_samples.length = 1 :=
  ((c1_metrics_amended .predictOp false ⟨0, 0⟩ ⟨0, 0⟩ 0 5 "m"
      TfStatus.okStatus).1 (Or.inl rfl)).1 rfl

/-- C2 (counterexample): with "enforce session timeout" configured and the
deadline one second in the past, the timeout handed to the backend is
-1000 milliseconds — a negative value, not max(0, deadline - now) = 0. -/
theorem c2_timeout_counterexample :
    (dispatch .predictOp true ⟨0, 0⟩ ⟨1, 0⟩ 0 0 "m"
        TfStatus.okStatus).run_options = some { timeout_in_ms := -1000 } ∧
    ¬ (0 ≤ (-1000 : Int)) := by
  refine ⟨rfl, ?_⟩
  decide

/-- C2 (amended): for every dispatcher operation that constructs
RunOptions (all but GetModelMetadata, which passes no timeout at all),
when "enforce session timeout" is configured the execution timeout handed
to the backend equals (deadline - now) floored to millisecond resolution —
negative when the deadline is already past; when not configured the
timeout field keeps its default 0, meaning no timeout (infinite). -/
theorem c2_timeout_amended (op : Op) (enforce : Bool)
    (deadline now : GprTimespec) (start finish : Nat) (model_name : String)
    (tf_status : TfStatus) (hop : op ≠ .getModelMetadataOp)
    (hd : deadline.normalized) (hn : now.normalized) :
    (dispatch op enforce deadline now start finish model_name
        tf_status).run_options =
      some { timeout_in_ms :=
               if enforce then Int.fdiv (deadline.nanos - now.nanos) 1000000
               else 0 } := by
  have hto := deadline_to_timeout_eq_fdiv deadline now hd hn
  cases op <;> simp at hop <;>
    cases enforce <;>
      simp [dispatch, PredictionServiceImpl.Predict,
        PredictionServiceImpl.Classify, PredictionServiceImpl.Regress,
        PredictionServiceImpl.MultiInference, make_run_options, hto]

/-- C2 (witness): with the deadline 1.5 seconds after now, the Predict
handler hands the backend a 1500 ms timeout. -/
theorem c2_timeout_amended_witness :
    (dispatch .predictOp true ⟨2, 500000000⟩ ⟨1, 0⟩ 0 0 "m"
        TfStatus.okStatus).run_options =
      some { timeout_in_ms :=
               if true then
                 Int.fdiv ((GprTimespec.mk 2 500000000).nanos -
                   (GprTimespec.mk 1 0).nanos) 1000000
               else 0 } :=
  c2_timeout_amended .predictOp true ⟨2, 500000000⟩ ⟨1, 0⟩ 0 0 "m"
    TfStatus.okStatus (by decide) (by decide) (by decide)

/-- C3 (counterexample): a Load whose configuration includes batching
parameters while the factory holds no scheduler does not always fail with
Internal: when the backend-construction step itself fails first (here the
artifact is missing), the load fails with that NotFound error instead. -/
theorem c3_scheduler_counterexample :
    factory_batching_no_scheduler.config_.batching_parameters.isSome
      = true ∧
    factory_batching_no_scheduler.batch_scheduler_ = none ∧
    factory_batching_no_scheduler.internal_create_saved_model_bundle
        env_no_artifact none test_model_path =
      .error { code := .notFound, message := "no servable" } ∧
    StatusCode.notFound ≠ StatusCode.internal := by
  refine ⟨rfl, rfl, rfl, ?_⟩
  decide

/-- C3 (amended): for every Load call whose configuration includes
batching parameters and whose backend-construction step succeeds, if the
factory holds no Batching Scheduler the load fails with an Internal error
and no bundle is returned; and for every factory built by Create, every
successful load with batching is bound to the scheduler constructed once
at factory creation — the same one across all loads of that factory. -/
theorem c3_scheduler_amended :
    (∀ (f : SavedModelBundleFactory) (env : ModelEnv)
        (metadata : Option LoaderMetadata) (path : String)
        (core : SessionCore) (loaded_mgd : MetaGraphDef),
        f.load_backend env metadata path = .ok (core, loaded_mgd) →
        f.config_.batching_parameters.isSome = true →
        f.batch_scheduler_ = none →
        f.internal_create_saved_model_bundle env metadata path =
          .error { code := .internal
                   message := "batch_scheduler_ not set" }) ∧
    (∀ (config : SessionBundleConfig) (fresh_scheduler : Batcher)
        (env : ModelEnv) (metadata : Option LoaderMetadata) (path : String)
        (bundle : SavedModelBundle),
        (SavedModelBundleFactory.Create config
            fresh_scheduler).internal_create_saved_model_bundle env
            metadata path = .ok bundle →
        config.batching_parameters.isSome = true →
        bundle.session.scheduler = some fresh_scheduler) := by
  constructor
  · intro f env metadata path core loaded_mgd hl hb hs
    unfold SavedModelBundleFactory.internal_create_saved_model_bundle
    rw [hl]
    unfold SavedModelBundleFactory.finish_bundle
    rw [hb, hs]
    simp
  · intro config fresh_scheduler env metadata path bundle h hb
    obtain ⟨core, loaded_mgd, hl, hf⟩ := internal_create_ok_elim _ _ _ _ _ h
    have h3 := (finish_bundle_ok_elim _ _ _ _ hf).2.2
    simpa [SavedModelBundleFactory.Create, hb] using h3

/-- C3 (witness): the factory with batching and no scheduler fails a load
with Internal once the lightweight backend loads, and a factory created
with scheduler 7 binds every successful batched load to scheduler 7. -/
theorem c3_scheduler_amended_witness :
    factory_batching_no_scheduler.internal_create_saved_model_bundle
        env_tflite_only none test_model_path =
      .error { code := .internal, message := "batch_scheduler_ not set" } ∧
    (SavedModelBundle.session
        { session :=
            .batching 7 [half_plus_two_signature]
              (.tfliteSession half_plus_two_tflite 1)
          meta_graph_def :=
            { signature_def :=
                [("serving_default", half_plus_two_signature)] } }).scheduler
      = some 7 := by
  constructor
  · exact c3_scheduler_amended.1 factory_batching_no_scheduler
      env_tflite_only none test_model_path _ _ rfl rfl rfl
  · exact c3_scheduler_amended.2 config_tflite_batching 7 env_tflite_only
      none test_model_path _ rfl rfl

/-- C4: backend selection is exclusive: when the configuration prefers
the lightweight backend and the lightweight artifact exists, the session
is the lightweight backend built from the artifact bytes with the
configured replica count; otherwise it is the full engine loaded under
the active tag set. -/
theorem c4_backend_selection (f : SavedModelBundleFactory) (env : ModelEnv)
    (metadata : Option LoaderMetadata) (path : String)
    (bundle : SavedModelBundle)
    (h : f.internal_create_saved_model_bundle env metadata path =
      .ok bundle) :
    ((f.config_.prefer_tflite_model && TfLiteModelFound env path) = true →
      ∃ model_bytes, env.tflite_model path = some model_bytes ∧
        bundle.session.core =
          SessionCore.tfliteSession model_bytes
            f.config_.num_tflite_interpreters) ∧
    ((f.config_.prefer_tflite_model && TfLiteModelFound env path) = false →
      bundle.session.core =
        SessionCore.fullSession (active_saved_model_tags f.config_)) := by
  obtain ⟨core, loaded_mgd, hl, hf⟩ := internal_create_ok_elim _ _ _ _ _ h
  obtain ⟨hcore, -, -⟩ := finish_bundle_ok_elim _ _ _ _ hf
  constructor
  · intro hc
    obtain ⟨model_bytes, hm, hcm, -⟩ :=
      load_backend_tflite_elim _ _ _ _ _ _ hc hl
    exact ⟨model_bytes, hm, by rw [hcore, hcm]⟩
  · intro hc
    obtain ⟨hcm, -⟩ := load_backend_full_elim _ _ _ _ _ _ hc hl
    rw [hcore, hcm]

/-- C4 (witness): the lightweight-only fixture selects the lightweight
backend with 1 interpreter, and the plain fixture against the full-engine
environment selects the full engine under the active tags. -/
theorem c4_backend_selection_witness :
    (∃ model_bytes,
        env_tflite_only.tflite_model test_model_path = some model_bytes ∧
        bundle_tflite_fixture.session.core =
          SessionCore.tfliteSession model_bytes 1) ∧
    bundle_full_fixture.session.core =
      SessionCore.fullSession
        (active_saved_model_tags factory_plain.config_) := by
  constructor
  · exact (c4_backend_selection factory_tflite_only env_tflite_only none
      test_model_path bundle_tflite_fixture rfl).1 rfl
  · exact (c4_backend_selection factory_plain env_full_engine none
      test_model_path bundle_full_fixture rfl).2 rfl

/-- C5: supplying both an explicit version and a version label yields
InvalidArgument regardless of the other fields; with at most one of the
two, the spec is filled with the name and that selector and the call
succeeds. -/
theorem c5_model_spec (model_name : String) (model_version : Option Int)
    (model_version_label : Option String) :
    (∀ v l, model_version = some v → model_version_label = some l →
      FillModelSpecWithNameVersionAndLabel model_name model_version
          model_version_label =
        .error { code := .invalidArgument
                 message := "Both model version (" ++ toString v ++
                   ") and model version label (" ++ l ++
                   ") cannot be supplied." }) ∧
    (¬ (model_version.isSome = true ∧ model_version_label.isSome = true) →
      FillModelSpecWithNameVersionAndLabel model_name model_version
          model_version_label =
        .ok { name := model_name, version := model_version
              version_label := model_version_label }) := by
  constructor
  · rintro v l rfl rfl
    rfl
  · intro h
    cases model_version with
    | some v =>
        cases model_version_label with
        | some l => exact absurd ⟨rfl, rfl⟩ h
        | none => rfl
    | none => cases model_version_label <;> rfl

/-- C5 (witness): version 123 together with label stable is rejected with
InvalidArgument; version 123 alone fills the spec and succeeds. -/
theorem c5_model_spec_witness :
    FillModelSpecWithNameVersionAndLabel "half_plus_two" (some 123)
        (some "stable") =
      .error { code := .invalidArgument
               message := "Both model version (123) and model version label (stable) cannot be supplied." } ∧
    FillModelSpecWithNameVersionAndLabel "half_plus_two" (some 123) none =
      .ok { name := "half_plus_two", version := some 123
            version_label := none } := by
  constructor
  · exact (c5_model_spec "half_plus_two" (some 123) (some "stable")).1
      123 "stable" rfl rfl
  · exact (c5_model_spec "half_plus_two" (some 123) none).2
      (by simp)

/-- C6: with the strip-metadata flag, the bundle metadata after loading is
a fresh message retaining exactly the signature-definition section of the
originally loaded metadata; without the flag it is the loaded metadata
unchanged. -/
theorem c6_metadata_trim (f : SavedModelBundleFactory) (env : ModelEnv)
    (metadata : Option LoaderMetadata) (path : String)
    (core : SessionCore) (loaded_mgd : MetaGraphDef)
    (bundle : SavedModelBundle)
    (hl : f.load_backend env metadata path = .ok (core, loaded_mgd))
    (h : f.internal_create_saved_model_bundle env metadata path =
      .ok bundle) :
    (f.config_.remove_unused_fields_from_bundle_metagraph = true →
      bundle.meta_graph_def =
        { signature_def := loaded_mgd.signature_def
          graph_def := "", meta_info_def := "" }) ∧
    (f.config_.remove_unused_fields_from_bundle_metagraph = false →
      bundle.meta_graph_def = loaded_mgd) := by
  obtain ⟨core₂, loaded_mgd₂, hl₂, hf⟩ := internal_create_ok_elim _ _ _ _ _ h
  rw [hl] at hl₂
  cases hl₂
  obtain ⟨-, hmgd, -⟩ := finish_bundle_ok_elim _ _ _ _ hf
  unfold SavedModelBundleFactory.retained_metagraph trim_metagraph at hmgd
  constructor <;> intro hflag <;> rw [hflag] at hmgd <;> simpa using hmgd

/-- C6 (witness): the strip-flag factory returns the full-engine metadata
reduced to its signature_def section. -/
theorem c6_metadata_trim_witness :
    bundle_full_trimmed_fixture.meta_graph_def =
      { signature_def := full_engine_mgd.signature_def
        graph_def := "", meta_info_def := "" } :=
  (c6_metadata_trim factory_strip env_full_engine none test_model_path
    _ _ bundle_full_trimmed_fixture rfl rfl).1 rfl

/-- C7: when the configuration prefers the lightweight backend, the
artifact directory holds the lightweight file, and batching is not
configured, Load succeeds with the lightweight backend built with the
configured replica count and a signature map holding exactly the
signatures embedded in the file. -/
theorem c7_tflite_end_to_end (f : SavedModelBundleFactory) (env : ModelEnv)
    (metadata : Option LoaderMetadata) (path : String) (m : TfLiteModel)
    (hpref : f.config_.prefer_tflite_model = true)
    (hfile : env.tflite_model path = some m)
    (hnobatch : f.config_.batching_parameters = none) :
    f.internal_create_saved_model_bundle env metadata path =
      .ok { session :=
              .passthrough
                (.tfliteSession m f.config_.num_tflite_interpreters)
            meta_graph_def := { signature_def := m.signature_def_map } } := by
  unfold SavedModelBundleFactory.internal_create_saved_model_bundle
    SavedModelBundleFactory.load_backend TfLiteModelFound LoadTfLiteModel
    TfLiteSession.Create
  rw [hpref, hfile]
  simp only [Option.isSome_some, Bool.and_self, if_true]
  unfold SavedModelBundleFactory.finish_bundle
    SavedModelBundleFactory.retained_metagraph trim_metagraph
  rw [hnobatch]
  simp only [Option.isSome_none, Bool.false_eq_true, if_false]
  by_cases hflag : f.config_.remove_unused_fields_from_bundle_metagraph <;>
    simp [hflag]

/-- C7 (witness): the literal test case — an artifact path holding only
the half_plus_two lightweight file, prefer-lightweight set — returns the
lightweight backend whose signature map is exactly one signature keyed
serving_default with one input x and one output y. -/
theorem c7_tflite_end_to_end_witness :
    factory_tflite_only.internal_create_saved_model_bundle env_tflite_only
        none test_model_path =
      .ok { session := .passthrough (.tfliteSession half_plus_two_tflite 1)
            meta_graph_def :=
              { signature_def :=
                  [("serving_default", half_plus_two_signature)] } } :=
  c7_tflite_end_to_end factory_tflite_only env_tflite_only none
    test_model_path half_plus_two_tflite rfl rfl rfl

/-- C8: the active tag set used for full-engine loading is the configured
tag set when any tags are given, and the single default serve tag when
the configured list is empty. -/
theorem c8_active_tags (config : SessionBundleConfig) :
    (config.saved_model_tags ≠ [] →
      active_saved_model_tags config = config.saved_model_tags.toFinset) ∧
    (config.saved_model_tags = [] →
      active_saved_model_tags config = {kSavedModelTagServe}) := by
  constructor
  · intro h
    unfold active_saved_model_tags
    rw [if_neg]
    simpa [List.toFinset_eq_empty_iff] using h
  · intro h
    unfold active_saved_model_tags
    simp [h]

/-- C8 (witness): a configured tag list is kept as given; an empty one
becomes the singleton serve tag. -/
theorem c8_active_tags_witness :
    active_saved_model_tags { saved_model_tags := ["gpu", "serve"] } =
      (["gpu", "serve"] : List String).toFinset ∧
    active_saved_model_tags {} = {kSavedModelTagServe} := by
  constructor
  · exact (c8_active_tags _).1 (by simp)
  · exact (c8_active_tags _).2 rfl

/-- C9: after a successful TfLiteSession::Create, the caller-supplied
signature map holds exactly the signatures extracted from the model
bytes: the result is the extracted map, it does not depend on what the
map held before the call, and a key absent from the extracted map is
absent afterwards — prior entries are removed, not merged. -/
theorem c9_signature_map_replaced (model_bytes : TfLiteModel)
    (before₁ before₂ : SignatureMap) (num_interpreters : Nat) :
    (TfLiteSession.Create model_bytes before₁ num_interpreters).2 =
      model_bytes.signature_def_map ∧
    (TfLiteSession.Create model_bytes before₁ num_interpreters).2 =
      (TfLiteSession.Create model_bytes before₂ num_interpreters).2 ∧
    (∀ k, lookup_signature k model_bytes.signature_def_map = none →
      lookup_signature k
        (TfLiteSession.Create model_bytes before₁ num_interpreters).2 =
        none) := by
  refine ⟨rfl, rfl, ?_⟩
  intro k hk
  simpa [TfLiteSession.Create] using hk

/-- C9 (witness): the residual_signature entry present before the call is
gone afterwards (the scenario of the SimpleSignatureDef test). -/
theorem c9_signature_map_replaced_witness :
    lookup_signature "residual_signature"
      (TfLiteSession.Create half_plus_two_tflite
        [("residual_signature",
          { method_name := "", inputs := [], outputs := [] })] 1).2 =
      none :=
  (c9_signature_map_replaced half_plus_two_tflite
    [("residual_signature",
      { method_name := "", inputs := [], outputs := [] })] [] 1).2.2
    "residual_signature" rfl

end TfServing
